import Mathlib

/-!
Shallow embedding of `src/main.py`, an interactive command-line client for the
Ozon seller API.  The interactive functions are modelled as state-passing
functions over a `Console` (remaining input lines, printed output so far);
Python exceptions (`ValueError` from `int()`/`float()`, `json.JSONDecodeError`,
`EOFError`) become an `Except Err` result.  Python dicts are association lists
preserving insertion order, Python floats are exact rationals (every numeric
text the program parses denotes a finite decimal).
-/

/-- Runtime values the payload builder constructs: the JSON-like subset of
Python values.  Dicts are association lists in insertion order; floats are
modelled as exact rationals. -/
inductive Value where
  | vNull : Value
  | vBool : Bool → Value
  | vInt : Int → Value
  | vNum : ℚ → Value
  | vStr : String → Value
  | vList : List Value → Value
  | vDict : List (String × Value) → Value

/-- Whether a value is a mapping (a Python dict). -/
def Value.isMapping : Value → Bool
  | .vDict _ => true
  | _ => false

/-- Whether a value is an ordered sequence (a Python list). -/
def Value.isSequence : Value → Bool
  | .vList _ => true
  | _ => false

/-- Schema nodes: Python dicts with the keys `type`, `properties`, `required`,
`items`, `enum`, `default`, `description`.  Each field is `none` exactly when
the corresponding key is absent from the dict, so Python's truthiness test
`not schema` (true iff the dict has no keys) and `schema.get(k)` are both
representable.  (A `default` key present with value `None` is conflated with an
absent key; every access the program makes treats them alike via
`schema.get("default") is not None`.) -/
inductive Schema where
  | mk : Option String → Option (List (String × Schema)) → Option (List String) →
      Option Schema → Option (List String) → Option Value → Option String → Schema

def Schema.type : Schema → Option String
  | .mk t _ _ _ _ _ _ => t

def Schema.properties : Schema → Option (List (String × Schema))
  | .mk _ p _ _ _ _ _ => p

def Schema.required : Schema → Option (List String)
  | .mk _ _ r _ _ _ _ => r

def Schema.items : Schema → Option Schema
  | .mk _ _ _ i _ _ _ => i

def Schema.enum : Schema → Option (List String)
  | .mk _ _ _ _ e _ _ => e

def Schema.default : Schema → Option Value
  | .mk _ _ _ _ _ d _ => d

def Schema.description : Schema → Option String
  | .mk _ _ _ _ _ _ d => d

/-- The schema dict `\x7b\x7d` with no keys (and the default used by
`schema.get("items", \x7b\x7d)`). -/
def emptySchema : Schema := .mk none none none none none none none

/-- Python truthiness of a schema dict: `not schema` is true iff it has no
keys. -/
def Schema.isEmptyDict : Schema → Bool
  | .mk none none none none none none none => true
  | _ => false

/-- Result of `schema.get("enum")` seen through its truthiness test: the list
when the key is present, `[]` otherwise (`if schema.get("enum")` treats a
present empty list and an absent key alike). -/
def Schema.enumList (s : Schema) : List String := s.enum.getD []

/-- Result of `schema.get("properties", \x7b\x7d)` as an association list. -/
def Schema.propertiesList (s : Schema) : List (String × Schema) := s.properties.getD []

/-- Result of `schema.get("required", [])`. -/
def Schema.requiredList (s : Schema) : List String := s.required.getD []

/-- Exceptions the modelled fragment can raise. -/
inductive Err where
  /-- `ValueError` raised by `int()` / `float()` on text that is not a valid
  numeric literal (the spec's `InvalidNumberFormat`). -/
  | invalidNumberFormat : Err
  /-- `json.JSONDecodeError` raised by `json.loads` (the spec's
  `MalformedJsonInput`). -/
  | malformedJsonInput : Err
  /-- `EOFError` raised by `input()` when the input stream is exhausted. -/
  | eof : Err
  /-- Artificial: recursion fuel exhausted.  The source loops terminate
  because every iteration consumes an input line or descends into a strictly
  smaller schema, so every terminating source run is reproduced exactly by a
  sufficiently large fuel; no theorem depends on the behaviour at fuel 0. -/
  | outOfFuel : Err
deriving DecidableEq

/-- The interactive console: the input lines not yet consumed and the text
printed so far (prompts and `print` output, in order). -/
structure Console where
  inp : List String
  out : List String
deriving DecidableEq

/-- Python's `input(prompt)`: print the prompt, consume one line;
`EOFError` when the stream is exhausted. -/
def readLine (prompt : String) (c : Console) : Except Err (String × Console) :=
  match c.inp with
  | [] => .error .eof
  | l :: ls => .ok (l, ⟨ls, c.out ++ [prompt]⟩)

/-- Python's `print(s)`. -/
def printLine (s : String) (c : Console) : Console :=
  ⟨c.inp, c.out ++ [s]⟩

theorem readLine_ok_inp {p : String} {c c' : Console} {l : String}
    (h : readLine p c = .ok (l, c')) : c'.inp.length + 1 = c.inp.length := by
  unfold readLine at h
  cases hc : c.inp with
  | nil => rw [hc] at h; cases h
  | cons x xs => rw [hc] at h; cases h; simp

/-- Python's `str.strip()` (the inputs in scope only ever carry ASCII
whitespace at the ends). -/
def pyStrip (s : String) : String :=
  String.mk (((s.toList.dropWhile Char.isWhitespace).reverse.dropWhile
    Char.isWhitespace).reverse)

/-- Lower-case one character: ASCII `A`–`Z` and Cyrillic `А`–`Я`, `Ё` (the
only alphabets occurring in the program's token sets).  Python's `str.lower`
is full-Unicode; this restriction is faithful for every comparison the
program performs. -/
def lowerChar (c : Char) : Char :=
  if 'A' ≤ c ∧ c ≤ 'Z' then Char.ofNat (c.toNat + 32)
  else if 'А' ≤ c ∧ c ≤ 'Я' then Char.ofNat (c.toNat + 32)
  else if c = 'Ё' then 'ё'
  else c

/-- Python's `str.lower()` on the relevant alphabets. -/
def pyLower (s : String) : String := String.mk (s.toList.map lowerChar)

/-- Upper-case one character (ASCII suffices: only HTTP method names are
upper-cased). -/
def upperChar (c : Char) : Char :=
  if 'a' ≤ c ∧ c ≤ 'z' then Char.ofNat (c.toNat - 32) else c

/-- Python's `str.upper()` on ASCII. -/
def pyUpper (s : String) : String := String.mk (s.toList.map upperChar)

/-- Parse a run of decimal digits possibly separated by single underscores
(Python's integer-literal digit grammar): must start and end with a digit, no
two consecutive underscores.  `lastDigit` records whether the previous
character was a digit. -/
def parseDigitsU : List Char → Nat → Bool → Option Nat
  | [], acc, lastDigit => if lastDigit then some acc else none
  | ch :: cs, acc, lastDigit =>
    if ch.isDigit then parseDigitsU cs (acc * 10 + (ch.toNat - 48)) true
    else if ch = '_' ∧ lastDigit then parseDigitsU cs acc false
    else none

/-- Python's `int(s)`: strip whitespace, optional sign, then a digit run;
`none` models the `ValueError` on anything else. -/
def pyInt (s : String) : Option Int :=
  match (pyStrip s).toList with
  | [] => none
  | '+' :: cs => (parseDigitsU cs 0 false).map Int.ofNat
  | '-' :: cs => (parseDigitsU cs 0 false).map fun n => -(n : Int)
  | cs => (parseDigitsU cs 0 false).map Int.ofNat

/-- Take the leading run of digits/underscores (Python float-literal digit
grammar) and return it with the remainder. -/
def numRun (cs : List Char) : List Char × List Char :=
  (cs.takeWhile (fun c => c.isDigit || c == '_'), cs.dropWhile (fun c => c.isDigit || c == '_'))

/-- Count of actual digits in a run (underscores excluded). -/
def runDigits (run : List Char) : Nat := (run.filter Char.isDigit).length

/-- Parse the text after `e`/`E` in a float literal: optional sign then a
digit run that must reach the end of the literal. -/
def parseExpPart (cs : List Char) : Option Int :=
  let (neg, cs1) : Bool × List Char :=
    match cs with
    | '+' :: t => (false, t)
    | '-' :: t => (true, t)
    | t => (false, t)
  let (run, rest) := numRun cs1
  if rest ≠ [] then none
  else (parseDigitsU run 0 false).map fun n => if neg then -(n : Int) else (n : Int)

/-- Scale a rational by a power of ten (avoiding `zpow` so everything reduces
by evaluation). -/
def applyExp (q : ℚ) (e : Int) : ℚ :=
  if 0 ≤ e then q * (10 : ℚ) ^ e.toNat else q / (10 : ℚ) ^ (-e).toNat

/-- Python's `float(s)` on finite decimal literals: strip, optional sign,
`digits [. digits] [exponent]` with at least one mantissa digit; `none` models
the `ValueError`.  The non-finite literals `inf`/`infinity`/`nan` are not
modelled — no value in this program's scope is non-finite. -/
def pyFloat (s : String) : Option ℚ :=
  let cs := (pyStrip s).toList
  let (neg, cs1) : Bool × List Char :=
    match cs with
    | '-' :: t => (true, t)
    | '+' :: t => (false, t)
    | t => (false, t)
  let (irun, rest1) := numRun cs1
  let intPart : Option Nat := if irun = [] then some 0 else parseDigitsU irun 0 false
  let build : Nat → Nat → Nat → Int → Option ℚ := fun iv fv fd e =>
    if irun = [] ∧ fd = 0 then none
    else
      let q := applyExp ((iv : ℚ) + (fv : ℚ) / (10 : ℚ) ^ fd) e
      some (if neg then -q else q)
  match intPart with
  | none => none
  | some iv =>
    match rest1 with
    | [] => if irun = [] then none else build iv 0 0 0
    | '.' :: rest2 =>
      let (frun, rest3) := numRun rest2
      let fracPart : Option (Nat × Nat) :=
        if frun = [] then some (0, 0)
        else (parseDigitsU frun 0 false).map fun n => (n, runDigits frun)
      match fracPart with
      | none => none
      | some (fv, fd) =>
        match rest3 with
        | [] => build iv fv fd 0
        | 'e' :: rest4 => (parseExpPart rest4).bind fun e => build iv fv fd e
        | 'E' :: rest4 => (parseExpPart rest4).bind fun e => build iv fv fd e
        | _ => none
    | 'e' :: rest2 => (parseExpPart rest2).bind fun e => build iv 0 0 e
    | 'E' :: rest2 => (parseExpPart rest2).bind fun e => build iv 0 0 e
    | _ => none

/-- JSON whitespace. -/
def jsonWs (c : Char) : Bool := c == ' ' || c == '\t' || c == '\n' || c == '\r'

def skipWs (cs : List Char) : List Char := cs.dropWhile jsonWs

/-- Value of one hexadecimal digit. -/
def hexVal (c : Char) : Option Nat :=
  if c.isDigit then some (c.toNat - 48)
  else if 'a' ≤ c ∧ c ≤ 'f' then some (c.toNat - 87)
  else if 'A' ≤ c ∧ c ≤ 'F' then some (c.toNat - 55)
  else none

/-- Scan a JSON string body (the opening quote already consumed): characters
up to the closing quote, with the standard escapes.  `\uXXXX` escapes outside
the valid scalar range fall back through `Char.ofNat` (no claim uses them). -/
def jstringGo : List Char → List Char → Option (String × List Char)
  | _, [] => none
  | acc, '"' :: rest => some (String.mk acc.reverse, rest)
  | acc, '\\' :: '"' :: r => jstringGo ('"' :: acc) r
  | acc, '\\' :: '\\' :: r => jstringGo ('\\' :: acc) r
  | acc, '\\' :: '/' :: r => jstringGo ('/' :: acc) r
  | acc, '\\' :: 'b' :: r => jstringGo ('\x08' :: acc) r
  | acc, '\\' :: 'f' :: r => jstringGo ('\x0c' :: acc) r
  | acc, '\\' :: 'n' :: r => jstringGo ('\n' :: acc) r
  | acc, '\\' :: 'r' :: r => jstringGo ('\r' :: acc) r
  | acc, '\\' :: 't' :: r => jstringGo ('\t' :: acc) r
  | acc, '\\' :: 'u' :: h1 :: h2 :: h3 :: h4 :: r =>
    match hexVal h1, hexVal h2, hexVal h3, hexVal h4 with
    | some a, some b, some c, some d =>
      jstringGo (Char.ofNat (((a * 16 + b) * 16 + c) * 16 + d) :: acc) r
    | _, _, _, _ => none
  | _, '\\' :: _ => none
  | acc, c :: rest => if c.toNat < 32 then none else jstringGo (c :: acc) rest

/-- Scan a JSON number (the grammar of Python's json scanner:
`-?(0|[1-9][0-9]*)(\.[0-9]+)?([eE][+-]?[0-9]+)?`); a frac or exponent part
makes it a float.  When frac/exponent fail to match, the number simply ends
there and the surrounding context sees the leftover text. -/
def jparseNumber (cs : List Char) : Option (Value × List Char) :=
  let (neg, cs1) : Bool × List Char :=
    match cs with
    | '-' :: t => (true, t)
    | t => (false, t)
  let ipart : Option (Nat × List Char) :=
    match cs1 with
    | '0' :: rest => some (0, rest)
    | c :: _ =>
      if c.isDigit then
        (parseDigitsU (cs1.takeWhile Char.isDigit) 0 false).map
          fun n => (n, cs1.dropWhile Char.isDigit)
      else none
    | [] => none
  match ipart with
  | none => none
  | some (iv, rest1) =>
    let (fv, fd, rest2) : Nat × Nat × List Char :=
      match rest1 with
      | '.' :: t =>
        let run := t.takeWhile Char.isDigit
        if run = [] then (0, 0, rest1)
        else ((parseDigitsU run 0 false).getD 0, run.length, t.dropWhile Char.isDigit)
      | _ => (0, 0, rest1)
    let (e, expOk, rest3) : Int × Bool × List Char :=
      match rest2 with
      | 'e' :: t | 'E' :: t =>
        let (eneg, t2) : Bool × List Char :=
          match t with
          | '+' :: u => (false, u)
          | '-' :: u => (true, u)
          | u => (false, u)
        let run := t2.takeWhile Char.isDigit
        if run = [] then (0, false, rest2)
        else
          (((parseDigitsU run 0 false).getD 0 : Nat) |> fun n =>
            ((if eneg then -(n : Int) else (n : Int)), true, t2.dropWhile Char.isDigit))
      | _ => (0, false, rest2)
    if fd = 0 ∧ expOk = false then
      some (.vInt (if neg then -(iv : Int) else (iv : Int)), rest1)
    else
      let q := applyExp ((iv : ℚ) + (fv : ℚ) / (10 : ℚ) ^ fd) e
      some (.vNum (if neg then -q else q), rest3)

mutual

/-- Parse one JSON value (Python's `json.loads` grammar in strict mode; the
non-standard `Infinity`/`NaN` constants are not modelled — no input in this
program's scope uses them).  `fuel` bounds recursion depth; `pyJsonLoads`
supplies enough for any input. -/
def jparseVal : Nat → List Char → Option (Value × List Char)
  | 0, _ => none
  | fuel + 1, cs =>
    match skipWs cs with
    | [] => none
    | '{' :: rest =>
      match skipWs rest with
      | '}' :: rest2 => some (.vDict [], rest2)
      | _ => (jparseMembers fuel (skipWs rest)).map fun p => (.vDict p.1, p.2)
    | '[' :: rest =>
      match skipWs rest with
      | ']' :: rest2 => some (.vList [], rest2)
      | _ => (jparseElems fuel (skipWs rest)).map fun p => (.vList p.1, p.2)
    | '"' :: rest => (jstringGo [] rest).map fun p => (.vStr p.1, p.2)
    | 't' :: 'r' :: 'u' :: 'e' :: rest => some (.vBool true, rest)
    | 'f' :: 'a' :: 'l' :: 's' :: 'e' :: rest => some (.vBool false, rest)
    | 'n' :: 'u' :: 'l' :: 'l' :: rest => some (.vNull, rest)
    | cs2 => jparseNumber cs2

/-- Parse the members of a non-empty JSON object, up to and including the
closing brace.  (Python collapses duplicate keys, last wins; the model keeps
the association list — no input in scope repeats a key.) -/
def jparseMembers : Nat → List Char → Option (List (String × Value) × List Char)
  | 0, _ => none
  | fuel + 1, cs =>
    match skipWs cs with
    | '"' :: rest =>
      match jstringGo [] rest with
      | none => none
      | some (k, rest2) =>
        match skipWs rest2 with
        | ':' :: rest3 =>
          match jparseVal fuel rest3 with
          | none => none
          | some (v, rest4) =>
            match skipWs rest4 with
            | ',' :: rest5 => (jparseMembers fuel rest5).map fun p => ((k, v) :: p.1, p.2)
            | '}' :: rest5 => some ([(k, v)], rest5)
            | _ => none
        | _ => none
    | _ => none

/-- Parse the elements of a non-empty JSON array, up to and including the
closing bracket. -/
def jparseElems : Nat → List Char → Option (List Value × List Char)
  | 0, _ => none
  | fuel + 1, cs =>
    match jparseVal fuel cs with
    | none => none
    | some (v, rest) =>
      match skipWs rest with
      | ',' :: rest2 => (jparseElems fuel rest2).map fun p => (v :: p.1, p.2)
      | ']' :: rest2 => some ([v], rest2)
      | _ => none

end

/-- Python's `json.loads`: parse one document and require full consumption
(trailing whitespace aside); failure models `json.JSONDecodeError`. -/
def pyJsonLoads (s : String) : Except Err Value :=
  match jparseVal (s.toList.length + 1) s.toList with
  | none => .error .malformedJsonInput
  | some (v, rest) => if skipWs rest = [] then .ok v else .error .malformedJsonInput

/-- Truthy tokens of the boolean coercion (src/main.py line 105). -/
def truthyTokens : List String := ["true", "1", "yes", "y", "да"]

/-- The re-prompt shown for an enum field when the first input was empty
(line 97). -/
def enum_prompt (s : Schema) : String :=
  "  Возможные значения (" ++ String.intercalate ", " s.enumList ++ "). Выберите: "

/-- Embedding of `convert_primitive` (src/main.py lines 91–106): default
first on empty input, then the enum pass-through (with one re-prompt on empty
input), then the switch on `type`. -/
def convert_primitive (raw : String) (schema : Schema) (c : Console) :
    Except Err (Value × Console) :=
  if hd : raw = "" ∧ schema.default.isSome then
    .ok (schema.default.get hd.2, c)
  else if schema.enumList ≠ [] then
    if raw = "" then
      match readLine (enum_prompt schema) c with
      | .error e => .error e
      | .ok (l, c1) => .ok (.vStr (pyStrip l), c1)
    else .ok (.vStr raw, c)
  else if schema.type = some "integer" then
    match pyInt raw with
    | some n => .ok (.vInt n, c)
    | none => .error .invalidNumberFormat
  else if schema.type = some "number" then
    match pyFloat raw with
    | some q => .ok (.vNum q, c)
    | none => .error .invalidNumberFormat
  else if schema.type = some "boolean" then
    .ok (.vBool (truthyTokens.contains (pyLower raw)), c)
  else .ok (.vStr raw, c)

/-- Embedding of the element loop in `prompt_for_value`'s array branch
(lines 80–87): read lines until the first empty one; each non-empty stripped
line goes to `convert_primitive` with the item schema, and the values are
collected in entry order.  `fuel` bounds the loop iterations; every iteration
consumes one input line, so any source run is reproduced with ample fuel. -/
def array_elements (fuel : Nat) (item_schema : Schema) (c : Console) :
    Except Err (List Value × Console) :=
  match fuel with
  | 0 => .error .outOfFuel
  | fuel + 1 =>
    match readLine "  ➜ элемент: " c with
    | .error e => .error e
    | .ok (line, c1) =>
      if pyStrip line = "" then .ok ([], c1)
      else
        match convert_primitive (pyStrip line) item_schema c1 with
        | .error e => .error e
        | .ok (v, c2) =>
          match array_elements fuel item_schema c2 with
          | .error e => .error e
          | .ok (vs, c3) => .ok (v :: vs, c3)

/-- Affirmative tokens of the optional-field question (line 118). -/
def affirmTokens : List String := ["y", "yes", "д", "да"]

/-- Python's `a or b` for the title computation (line 115): the description
unless it is absent or empty (both falsy). -/
def orStr (o : Option String) (alt : String) : String :=
  match o with
  | some d => if d = "" then alt else d
  | none => alt

/-- The optional-field question for property `prop` (line 117). -/
def opt_prompt (prop : String) (ps : Schema) : String :=
  "Заполнить необязательное поле \x27" ++ orStr ps.description prop ++ "\x27? [y/N]: "


mutual

/-- Embedding of `prompt_for_value` (lines 74–88): dispatch on the schema
type — object recurses into the object builder, array runs the element loop,
anything else reads one line and coerces it.  `fuel` bounds the recursive
descent (the source descent is bounded by schema size and input length). -/
def prompt_for_value (fuel : Nat) (name : String) (schema : Schema) (c : Console) :
    Except Err (Value × Console) :=
  match fuel with
  | 0 => .error .outOfFuel
  | fuel + 1 =>
    if schema.type = some "object" then
      match prompt_for_object fuel schema c with
      | .error e => .error e
      | .ok (m, c1) => .ok (.vDict m, c1)
    else if schema.type = some "array" then
      let c1 := printLine
        ("Введите значения для массива " ++ name ++ " (пустая строка для завершения):") c
      match array_elements fuel (schema.items.getD emptySchema) c1 with
      | .error e => .error e
      | .ok (vs, c2) => .ok (.vList vs, c2)
    else
      match readLine ("Введите " ++ name ++ ": ") c with
      | .error e => .error e
      | .ok (line, c1) => convert_primitive (pyStrip line) schema c1

/-- Embedding of `prompt_for_object` (lines 109–121). -/
def prompt_for_object (fuel : Nat) (schema : Schema) (c : Console) :
    Except Err (List (String × Value) × Console) :=
  match fuel with
  | 0 => .error .outOfFuel
  | fuel + 1 => object_fields fuel schema.propertiesList schema.requiredList c

/-- The per-property loop of `prompt_for_object` (lines 113–120): walk the
declared properties in order; required ones are always filled, optional ones
only after an affirmative answer, declined ones are skipped entirely. -/
def object_fields (fuel : Nat) (props : List (String × Schema)) (required : List String)
    (c : Console) : Except Err (List (String × Value) × Console) :=
  match fuel with
  | 0 => .error .outOfFuel
  | fuel + 1 =>
    match props with
    | [] => .ok ([], c)
    | (prop, prop_schema) :: rest =>
      if required.contains prop then
        match prompt_for_value fuel (orStr prop_schema.description prop) prop_schema c with
        | .error e => .error e
        | .ok (v, c1) =>
          match object_fields fuel rest required c1 with
          | .error e => .error e
          | .ok (kvs, c2) => .ok ((prop, v) :: kvs, c2)
      else
        match readLine (opt_prompt prop prop_schema) c with
        | .error e => .error e
        | .ok (line, c1) =>
          if affirmTokens.contains (pyLower (pyStrip line)) then
            match prompt_for_value fuel (orStr prop_schema.description prop) prop_schema c1 with
            | .error e => .error e
            | .ok (v, c2) =>
              match object_fields fuel rest required c2 with
              | .error e => .error e
              | .ok (kvs, c3) => .ok ((prop, v) :: kvs, c3)
          else object_fields fuel rest required c1

end

/-- Python truthiness of the `schema` argument at line 125 (`if not schema`):
`None` or the dict with no keys. -/
def falsySchema : Option Schema → Bool
  | none => true
  | some s => s.isEmptyDict

/-- The raw-JSON entry shared by the no-schema path (lines 126–127) and the
non-object fallback (lines 131–132); only the prompt text differs.  The typed
line is not stripped; empty input yields the empty dict, anything else goes
through `json.loads` and its parsed value is returned unchanged. -/
def raw_json_entry (prompt : String) (c : Console) : Except Err (Value × Console) :=
  match readLine prompt c with
  | .error e => .error e
  | .ok (raw, c1) =>
    if raw = "" then .ok (.vDict [], c1)
    else
      match pyJsonLoads raw with
      | .error e => .error e
      | .ok v => .ok (v, c1)

/-- Embedding of `prompt_for_payload` (lines 124–132); `fuel` is passed on
to the object builder. -/
def prompt_for_payload (fuel : Nat) (schema : Option Schema) (c : Console) :
    Except Err (Value × Console) :=
  if falsySchema schema then
    raw_json_entry "Введите тело запроса в формате JSON (или оставьте пустым): " c
  else if (schema.getD emptySchema).type = some "object" then
    let c1 := printLine
      "Заполните поля запроса (оставьте пустым, если не хотите заполнять необязательные поля):" c
    match prompt_for_object fuel (schema.getD emptySchema) c1 with
    | .error e => .error e
    | .ok (m, c2) => .ok (.vDict m, c2)
  else
    raw_json_entry "Введите тело запроса в формате JSON: " c

/-- JSON string escaping for the serializer. -/
def jsonEscape (s : String) : String :=
  s.toList.foldl (fun acc c =>
    acc ++ (if c = '"' then "\\\"" else if c = '\\' then "\\\\"
      else if c = '\n' then "\\n" else if c = '\t' then "\\t"
      else if c = '\r' then "\\r" else String.singleton c)) ""

mutual

/-- Embedding of `pretty_json` (lines 135–136).  The model serializes
compactly and renders rationals as `num/den`; the exact text produced by
`json.dumps(..., ensure_ascii=False, indent=2)` (indentation, float repr) is
abstracted — no claim inspects the serialized payload text. -/
def pretty_json : Value → String
  | .vNull => "null"
  | .vBool true => "true"
  | .vBool false => "false"
  | .vInt n => toString n
  | .vNum q => toString q.num ++ "/" ++ toString q.den
  | .vStr s => "\"" ++ jsonEscape s ++ "\""
  | .vList xs => "[" ++ String.intercalate ", " (prettyList xs) ++ "]"
  | .vDict kvs => "\x7b" ++ String.intercalate ", " (prettyDict kvs) ++ "\x7d"

def prettyList : List Value → List String
  | [] => []
  | v :: vs => pretty_json v :: prettyList vs

def prettyDict : List (String × Value) → List String
  | [] => []
  | (k, v) :: kvs => ("\"" ++ jsonEscape k ++ "\": " ++ pretty_json v) :: prettyDict kvs

end

/-- The `BASE_URL` constant (line 8). -/
def BASE_URL : String := "https://api-seller.ozon.ru/"

/-- Operation metadata: the values of the `COMMANDS` dict. -/
structure Meta where
  method : String
  summary : String
  schema : Option Schema

instance : Inhabited Meta := ⟨⟨"post", "", none⟩⟩

/-- A leaf node carrying only a `type` key. -/
def leafSchema (t : String) : Schema := .mk (some t) none none none none none none

/-- An array node with the given item schema. -/
def arraySchema (item : Schema) : Schema :=
  .mk (some "array") none none (some item) none none none

def itemTagsEnum : List String :=
  ["ITEM_ATTRIBUTE_NONE", "ITEM_ATTRIBUTE_BEST_SELLER", "ITEM_ATTRIBUTE_EXCLUSIVE"]

def turnoverGradesEnum : List String :=
  ["TURNOVER_GRADE_NONE", "TURNOVER_GRADE_GREEN", "TURNOVER_GRADE_YELLOW",
   "TURNOVER_GRADE_RED"]

/-- Schema of `v1/analytics/stocks` (lines 14–45). -/
def analyticsStocksSchema : Schema :=
  .mk (some "object")
    (some [
      ("cluster_ids", arraySchema (leafSchema "string")),
      ("item_tags", arraySchema
        (.mk (some "string") none none none (some itemTagsEnum) none none)),
      ("skus", arraySchema (leafSchema "string")),
      ("turnover_grades", arraySchema
        (.mk (some "string") none none none (some turnoverGradesEnum) none none)),
      ("warehouse_ids", arraySchema (leafSchema "string"))])
    (some []) none none none none

/-- Schema of `v3/supply-order/get` (lines 50–56). -/
def supplyOrderGetSchema : Schema :=
  .mk (some "object")
    (some [("order_ids", arraySchema (leafSchema "integer"))])
    (some ["order_ids"]) none none none none

/-- Schema of `v3/supply-order/list` (lines 61–69). -/
def supplyOrderListSchema : Schema :=
  .mk (some "object")
    (some [
      ("limit", .mk (some "integer") none none none none (some (.vInt 100)) none),
      ("offset", .mk (some "integer") none none none none (some (.vInt 0)) none),
      ("status", leafSchema "string")])
    (some []) none none none none

/-- Embedding of the `COMMANDS` catalog (lines 10–71), in the dict's
insertion order. -/
def COMMANDS : List (String × Meta) :=
  [("v1/analytics/stocks",
      ⟨"post", "Получить аналитику по остаткам", some analyticsStocksSchema⟩),
   ("v3/supply-order/get",
      ⟨"post", "Получить информацию о заявках на поставку", some supplyOrderGetSchema⟩),
   ("v3/supply-order/list",
      ⟨"post", "Список заявок на поставку", some supplyOrderListSchema⟩)]

/-- Insertion into a key-sorted list (`sorted(commands.items())` sorts dict
items by their unique names). -/
def insertByKey (x : String × Meta) : List (String × Meta) → List (String × Meta)
  | [] => [x]
  | y :: ys => if compare x.1 y.1 = .lt then x :: y :: ys else y :: insertByKey x ys

def sortedCommands : List (String × Meta) → List (String × Meta)
  | [] => []
  | x :: xs => insertByKey x (sortedCommands xs)

/-- The numbered menu lines printed by `choose_command` (lines 154–156). -/
def menuLines (items : List (String × Meta)) : List String :=
  items.enum.map fun p =>
    "  " ++ toString (p.1 + 1) ++ ". " ++ p.2.1 ++ " — " ++ p.2.2.summary

/-- Print several lines in order. -/
def printAll (lines : List String) (c : Console) : Console :=
  ⟨c.inp, c.out ++ lines⟩

/-- Embedding of `choose_command` (lines 152–169): print the menu and read a
selection; empty input exits, a non-integer or out-of-range number prints a
complaint and recursively re-prompts (`int(raw)`'s `ValueError` is caught
here, unlike in the payload builder). -/
def choose_command (fuel : Nat) (commands : List (String × Meta)) (c : Console) :
    Except Err (Option String × Console) :=
  match fuel with
  | 0 => .error .outOfFuel
  | fuel + 1 =>
    let items := sortedCommands commands
    match readLine "Выберите номер команды (или Enter для выхода): "
        (printAll (["Доступные методы:"] ++ menuLines items) c) with
    | .error e => .error e
    | .ok (line, c1) =>
      let raw := pyStrip line
      if raw = "" then .ok (none, c1)
      else
        match pyInt raw with
        | none => choose_command fuel commands (printLine "Введите корректный номер." c1)
        | some idx =>
          if 1 ≤ idx ∧ idx ≤ items.length then
            .ok (some (items.getD ((idx - 1).toNat) default).1, c1)
          else choose_command fuel commands (printLine "Неверный номер." c1)

/-- Embedding of `run_command` (lines 172–198) up to the network call: build
the payload — an error from the build propagates out unhandled, because the
`try` in the source wraps only the HTTP request and the response printing —
then print the assembled request.  The HTTP exchange itself is the external
transport collaborator (spec §6) and is not modelled; the function returns
the built payload together with the console at the moment the request is
issued. -/
def run_command (fuel : Nat) (command : String) (meta : Meta) (c : Console) :
    Except Err (Value × Console) :=
  match prompt_for_payload fuel meta.schema c with
  | .error e => .error e
  | .ok (payload, c1) =>
    let method := pyLower meta.method
    let c2 := printAll ["\nСформированный запрос:",
      pyUpper method ++ " " ++ BASE_URL ++ command, pretty_json payload] c1
    .ok (payload, c2)

/-- Embedding of the session loop of `main` (lines 230–235): choose a command
and run it, until the operator exits with an empty selection.  `fuel` bounds
the iterations of the source's unbounded `while True` (any concrete session
performs finitely many).  There is no handler around `run_command` here: an
error from it propagates and aborts the loop — and with it the process. -/
def main_loop (commands : List (String × Meta)) : Nat → Console → Except Err Console
  | 0, c => .ok c
  | fuel + 1, c =>
    match choose_command (fuel + 1) commands c with
    | .error e => .error e
    | .ok (none, c1) => .ok (printLine "До встречи!" c1)
    | .ok (some selected, c1) =>
      match run_command (fuel + 1) selected ((commands.lookup selected).getD default) c1 with
      | .error e => .error e
      | .ok (_, c2) => main_loop commands fuel c2

/-! ## Claim theorems -/

/-- A leaf schema with a non-empty enum and also a default — the combination
the spec declares mutually exclusive. -/
def enumDefaultSchema : Schema :=
  .mk none none none none (some ["A", "B"]) (some (.vStr "x")) none

/-- An enum leaf schema without a default. -/
def enumOnlySchema : Schema := .mk none none none none (some ["A", "B"]) none none

/-- An integer leaf schema with default 100 (the `limit` field of
`v3/supply-order/list`). -/
def integerDefault100Schema : Schema :=
  .mk (some "integer") none none none none (some (.vInt 100)) none

/-- C3 counterexample: on the schema `enum ["A","B"], default "x"`, empty
input returns the default `"x"` without consuming the re-prompt answer `"B"`
that the claimed enum path would have read and returned — the default is
applied even though the enum is non-empty. -/
theorem C3_counterexample_default_wins :
    convert_primitive "" enumDefaultSchema ⟨["B"], []⟩ =
      .ok (.vStr "x", ⟨["B"], []⟩) ∧
    Value.vStr "x" ≠ Value.vStr "B" :=
  ⟨rfl, by simp⟩

/-- C3 amended: the default check precedes the enum check unconditionally —
on empty input with a defined default the coercer returns the default, enum
or no enum; the enum re-prompt path on empty input is reached only when no
default is defined. -/
theorem C3_amended_default_first (s : Schema) (d : Value) (c : Console)
    (h : s.default = some d) : convert_primitive "" s c = .ok (d, c) := by
  simp [convert_primitive, h]

/-- C3 amended, witnessed on the enum-plus-default schema. -/
theorem C3_amended_witness :
    enumDefaultSchema.default = some (.vStr "x") ∧
    convert_primitive "" enumDefaultSchema ⟨["B"], []⟩ =
      .ok (.vStr "x", ⟨["B"], []⟩) :=
  ⟨rfl, C3_amended_default_first enumDefaultSchema (.vStr "x") _ rfl⟩

/-- C6: `coerce("42", integer)` is the integer 42; `coerce("3.14", number)`
is the (exactly represented) float 3.14; `coerce("", integer with default
100)` is 100; and a default is returned verbatim with no type conversion —
even a string default on an integer-typed leaf comes back unchanged. -/
theorem C6_numeric_coercions :
    (∀ c, convert_primitive "42" (leafSchema "integer") c = .ok (.vInt 42, c)) ∧
    (∀ c, convert_primitive "3.14" (leafSchema "number") c =
      .ok (.vNum (3.14 : ℚ), c)) ∧
    (∀ c, convert_primitive "" integerDefault100Schema c = .ok (.vInt 100, c)) ∧
    (∀ d c, convert_primitive ""
      (.mk (some "integer") none none none none (some d) none) c = .ok (d, c)) := by
  refine ⟨fun c => rfl, fun c => ?_, fun c => rfl, fun d c => ?_⟩
  · have h2 : convert_primitive "3.14" (leafSchema "number") c =
        .ok (.vNum (applyExp ((3 : ℚ) + 14 / 10 ^ 2) 0), c) := rfl
    rw [h2, applyExp]
    norm_num
  · simp [convert_primitive, Schema.default]

/-- C7: on an enum leaf (no default), non-empty input is returned exactly as
typed with no membership validation, and empty input triggers exactly one
re-prompt that displays the allowed values, whose answer is returned as-is
(stripped) — even if still empty. -/
theorem C7_enum_pass_through (s : Schema) (he : s.enumList ≠ [])
    (hd : s.default = none) :
    (∀ raw c, raw ≠ "" → convert_primitive raw s c = .ok (.vStr raw, c)) ∧
    (∀ l ls out, convert_primitive "" s ⟨l :: ls, out⟩ =
      .ok (.vStr (pyStrip l), ⟨ls, out ++ [enum_prompt s]⟩)) := by
  constructor
  · intro raw c hraw
    simp [convert_primitive, hd, he, hraw]
  · intro l ls out
    simp [convert_primitive, hd, he, readLine]

/-- C7 witnessed: an out-of-enum value `"CUSTOM"` passes through unchanged,
and on empty input the re-prompt's answer is returned even when it is again
empty. -/
theorem C7_enum_pass_through_witness :
    enumOnlySchema.enumList ≠ [] ∧ enumOnlySchema.default = none ∧
    convert_primitive "CUSTOM" enumOnlySchema ⟨[], []⟩ =
      .ok (.vStr "CUSTOM", ⟨[], []⟩) ∧
    convert_primitive "" enumOnlySchema ⟨[""], ["x"]⟩ =
      .ok (.vStr "", ⟨[], ["x", enum_prompt enumOnlySchema]⟩) :=
  ⟨by decide, rfl,
   (C7_enum_pass_through enumOnlySchema (by decide) rfl).1 "CUSTOM" ⟨[], []⟩ (by decide),
   (C7_enum_pass_through enumOnlySchema (by decide) rfl).2 "" [] ["x"]⟩

/-- C9: on a boolean leaf (no enum; no default when the input is empty), the
coercion returns `true` exactly when the lower-cased input is one of the
fixed truthy tokens `true`, `1`, `yes`, `y`, `да`; everything else —
including the empty string — coerces to `false`. -/
theorem C9_boolean_coercion (s : Schema) (raw : String) (c : Console)
    (ht : s.type = some "boolean") (he : s.enumList = [])
    (hd : raw = "" → s.default = none) :
    convert_primitive raw s c =
      .ok (.vBool (truthyTokens.contains (pyLower raw)), c) ∧
    (truthyTokens.contains (pyLower raw) = true ↔
      pyLower raw ∈ ["true", "1", "yes", "y", "да"]) := by
  constructor
  · by_cases hraw : raw = ""
    · subst hraw
      simp +decide [convert_primitive, ht, he, hd rfl]
    · simp +decide [convert_primitive, ht, he, hraw]
  · simp [truthyTokens]

/-- C9 witnessed: `"Yes"` → true and `""` → false. -/
theorem C9_boolean_coercion_witness :
    (leafSchema "boolean").type = some "boolean" ∧
    (leafSchema "boolean").enumList = [] ∧
    convert_primitive "Yes" (leafSchema "boolean") ⟨[], []⟩ =
      .ok (.vBool true, ⟨[], []⟩) ∧
    convert_primitive "" (leafSchema "boolean") ⟨[], []⟩ =
      .ok (.vBool false, ⟨[], []⟩) :=
  ⟨rfl, rfl,
   (C9_boolean_coercion (leafSchema "boolean") "Yes" ⟨[], []⟩ rfl rfl
     (fun h => absurd h (by decide))).1,
   (C9_boolean_coercion (leafSchema "boolean") "" ⟨[], []⟩ rfl rfl
     (fun _ => rfl)).1⟩

/-- C10: a present-but-empty schema dict is falsy, so `prompt_for_payload`
takes the very same no-schema raw-JSON entry path as an absent schema (same
prompt, same behaviour) — indistinguishable at the public interface; the
second conjunct pins the path down concretely on a typed JSON object. -/
theorem C10_empty_schema_raw_path (fuel : Nat) (c : Console) :
    prompt_for_payload fuel (some emptySchema) c = prompt_for_payload fuel none c ∧
    prompt_for_payload fuel (some emptySchema) ⟨["\x7b\"a\": 1\x7d"], []⟩ =
      .ok (.vDict [("a", .vInt 1)],
        ⟨[], ["Введите тело запроса в формате JSON (или оставьте пустым): "]⟩) :=
  ⟨rfl, rfl⟩

/-- Keys discipline of the per-property loop: a successful run emits only
keys drawn from the walked properties, and emits every required name that
occurs among the walked property names. -/
theorem object_fields_keys {fuel : Nat} {props : List (String × Schema)}
    {required : List String} {c : Console} {m : List (String × Value)} {c' : Console}
    (h : object_fields fuel props required c = .ok (m, c')) :
    (∀ k ∈ m.map Prod.fst, k ∈ props.map Prod.fst) ∧
    (∀ k ∈ required, k ∈ props.map Prod.fst → k ∈ m.map Prod.fst) := by
  induction fuel generalizing props c m c' with
  | zero => simp [object_fields] at h
  | succ fuel ih =>
    cases props with
    | nil =>
      simp only [object_fields, Except.ok.injEq, Prod.mk.injEq] at h
      obtain ⟨hm, hc⟩ := h
      subst hm
      simp
    | cons hd rest =>
      obtain ⟨prop, ps⟩ := hd
      simp only [object_fields] at h
      by_cases hreq : required.contains prop
      · rw [if_pos hreq] at h
        cases hpv : prompt_for_value fuel (orStr ps.description prop) ps c with
        | error e => rw [hpv] at h; dsimp only at h; cases h
        | ok pv =>
          obtain ⟨v, c1⟩ := pv
          rw [hpv] at h
          dsimp only at h
          cases hof : object_fields fuel rest required c1 with
          | error e => rw [hof] at h; dsimp only at h; cases h
          | ok pr =>
            obtain ⟨kvs, c2⟩ := pr
            rw [hof] at h
            dsimp only at h
            cases h
            obtain ⟨ih1, ih2⟩ := ih hof
            constructor
            · intro k hk
              simp only [List.map_cons, List.mem_cons] at hk ⊢
              rcases hk with hk | hk
              · exact .inl hk
              · exact .inr (ih1 k hk)
            · intro k hk hkp
              simp only [List.map_cons, List.mem_cons] at hkp ⊢
              rcases hkp with hkp | hkp
              · exact .inl hkp
              · exact .inr (ih2 k hk hkp)
      · rw [if_neg hreq] at h
        cases hrl : readLine (opt_prompt prop ps) c with
        | error e => rw [hrl] at h; dsimp only at h; cases h
        | ok pl =>
          obtain ⟨line, c1⟩ := pl
          rw [hrl] at h
          dsimp only at h
          by_cases haff : affirmTokens.contains (pyLower (pyStrip line))
          · rw [if_pos haff] at h
            cases hpv : prompt_for_value fuel (orStr ps.description prop) ps c1 with
            | error e => rw [hpv] at h; dsimp only at h; cases h
            | ok pv =>
              obtain ⟨v, c2⟩ := pv
              rw [hpv] at h
              dsimp only at h
              cases hof : object_fields fuel rest required c2 with
              | error e => rw [hof] at h; dsimp only at h; cases h
              | ok pr =>
                obtain ⟨kvs, c3⟩ := pr
                rw [hof] at h
                dsimp only at h
                cases h
                obtain ⟨ih1, ih2⟩ := ih hof
                constructor
                · intro k hk
                  simp only [List.map_cons, List.mem_cons] at hk ⊢
                  rcases hk with hk | hk
                  · exact .inl hk
                  · exact .inr (ih1 k hk)
                · intro k hk hkp
                  simp only [List.map_cons, List.mem_cons] at hkp ⊢
                  rcases hkp with hkp | hkp
                  · exact .inl hkp
                  · exact .inr (ih2 k hk hkp)
          · rw [if_neg haff] at h
            obtain ⟨ih1, ih2⟩ := ih h
            constructor
            · intro k hk
              simp only [List.map_cons, List.mem_cons]
              exact .inr (ih1 k hk)
            · intro k hk hkp
              simp only [List.map_cons, List.mem_cons] at hkp
              rcases hkp with hkp | hkp
              · subst hkp
                exact absurd hk (by simpa using hreq)
              · exact ih2 k hk hkp

/-- C5: for an object schema whose required list is contained in its declared
property names, a successful object build emits no key outside the declared
properties and emits every required key. -/
theorem C5_object_keys (fuel : Nat) (s : Schema) (c : Console)
    (m : List (String × Value)) (c' : Console)
    (hreq : ∀ k ∈ s.requiredList, k ∈ s.propertiesList.map Prod.fst)
    (h : prompt_for_object fuel s c = .ok (m, c')) :
    (∀ k ∈ m.map Prod.fst, k ∈ s.propertiesList.map Prod.fst) ∧
    (∀ k ∈ s.requiredList, k ∈ m.map Prod.fst) := by
  cases fuel with
  | zero => simp [prompt_for_object] at h
  | succ fuel =>
    simp only [prompt_for_object] at h
    obtain ⟨h1, h2⟩ := object_fields_keys h
    exact ⟨h1, fun k hk => h2 k hk (hreq k hk)⟩

/-- C5 witnessed on `v3/supply-order/get` (required `order_ids` filled with
`[10]`): the required key is present in the emitted mapping. -/
theorem C5_object_keys_witness :
    (∀ k ∈ supplyOrderGetSchema.requiredList,
      k ∈ supplyOrderGetSchema.propertiesList.map Prod.fst) ∧
    prompt_for_object 9 supplyOrderGetSchema ⟨["10", ""], []⟩ =
      .ok ([("order_ids", .vList [.vInt 10])],
        ⟨[], ["Введите значения для массива order_ids (пустая строка для завершения):",
              "  ➜ элемент: ", "  ➜ элемент: "]⟩) ∧
    "order_ids" ∈ [("order_ids", Value.vList [.vInt 10])].map Prod.fst :=
  ⟨by decide, rfl,
   (C5_object_keys 9 supplyOrderGetSchema ⟨["10", ""], []⟩
      [("order_ids", .vList [.vInt 10])]
      ⟨[], ["Введите значения для массива order_ids (пустая строка для завершения):",
            "  ➜ элемент: ", "  ➜ элемент: "]⟩
      (by decide) rfl).2 "order_ids" (by decide)⟩

/-- C8: declining an optional property consumes exactly the answer line and
continues with the remaining properties — and when the declined name does not
occur later, the emitted mapping has no entry for it at all (the key is
absent, not null- or default-valued). -/
theorem C8_declined_optional_omitted (fuel : Nat) (prop : String) (ps : Schema)
    (rest : List (String × Schema)) (required : List String)
    (line : String) (ls out : List String)
    (hreq : required.contains prop = false)
    (hdecl : affirmTokens.contains (pyLower (pyStrip line)) = false) :
    object_fields (fuel + 1) ((prop, ps) :: rest) required ⟨line :: ls, out⟩ =
      object_fields fuel rest required ⟨ls, out ++ [opt_prompt prop ps]⟩ ∧
    ∀ m c', prop ∉ rest.map Prod.fst →
      object_fields fuel rest required ⟨ls, out ++ [opt_prompt prop ps]⟩ = .ok (m, c') →
      prop ∉ m.map Prod.fst := by
  constructor
  · have h1 : prop ∉ required := by simpa using hreq
    have h2 : pyLower (pyStrip line) ∉ affirmTokens := by simpa using hdecl
    simp [object_fields, h1, h2, readLine]
  · intro m c' hnot hok hmem
    exact hnot ((object_fields_keys hok).1 prop hmem)

/-- C8 witnessed: declining `limit` with answer `"n"` skips the property and
the result of the remaining (empty) walk has no `limit` key. -/
theorem C8_declined_optional_omitted_witness :
    ([] : List String).contains "limit" = false ∧
    affirmTokens.contains (pyLower (pyStrip "n")) = false ∧
    object_fields 2 [("limit", integerDefault100Schema)] [] ⟨["n"], []⟩ =
      object_fields 1 [] [] ⟨[], [opt_prompt "limit" integerDefault100Schema]⟩ ∧
    "limit" ∉ ([] : List (String × Value)).map Prod.fst :=
  ⟨rfl, rfl,
   (C8_declined_optional_omitted 1 "limit" integerDefault100Schema [] [] "n" [] []
     rfl rfl).1,
   (C8_declined_optional_omitted 1 "limit" integerDefault100Schema [] [] "n" [] []
     rfl rfl).2 [] ⟨[], [opt_prompt "limit" integerDefault100Schema]⟩
     (by simp) rfl⟩

/-- An object-typed item schema (with an empty `properties` dict), as could
appear under an array's `items`. -/
def objectItemSchema : Schema := .mk (some "object") (some []) none none none none none

/-- C2 counterexample: on an array whose item schema has type object, the
element produced from the entered line `"x"` is the plain string `"x"` — the
element loop hands the line to the primitive coercer, never to the value
prompter, so no mapping is built. -/
theorem C2_counterexample_object_item :
    prompt_for_value 9 "f" (arraySchema objectItemSchema) ⟨["x", ""], []⟩ =
      .ok (.vList [.vStr "x"],
        ⟨[], ["Введите значения для массива f (пустая строка для завершения):",
              "  ➜ элемент: ", "  ➜ элемент: "]⟩) ∧
    Value.isMapping (.vStr "x") = false :=
  ⟨rfl, rfl⟩

/-- On a schema with no enum, no default, and a non-scalar `type`
(object/array), the primitive coercer returns the raw text unchanged. -/
theorem convert_primitive_nonscalar_type (raw : String) (item : Schema) (c : Console)
    (he : item.enumList = []) (hd : item.default = none)
    (ht : item.type = some "object" ∨ item.type = some "array") :
    convert_primitive raw item c = .ok (.vStr raw, c) := by
  rcases ht with ht | ht <;> simp +decide [convert_primitive, he, hd, ht]

/-- C2 amended: each non-empty element line goes to the primitive coercer
(`convert_primitive`), not the value prompter, so an object- or array-typed
item schema (without enum or default) is never recursed into: every produced
element is the entered string itself, not a mapping or sequence. -/
theorem C2_amended_coercer_not_prompter (fuel : Nat) (item : Schema) (c : Console)
    (vs : List Value) (c' : Console)
    (he : item.enumList = []) (hd : item.default = none)
    (ht : item.type = some "object" ∨ item.type = some "array")
    (h : array_elements fuel item c = .ok (vs, c')) :
    ∀ v ∈ vs, ∃ s, v = .vStr s := by
  induction fuel generalizing c vs c' with
  | zero => simp [array_elements] at h
  | succ fuel ih =>
    simp only [array_elements] at h
    cases hc : c.inp with
    | nil => rw [readLine, hc] at h; cases h
    | cons l ls =>
      rw [readLine, hc] at h
      dsimp only at h
      by_cases hl : pyStrip l = ""
      · rw [if_pos hl] at h
        cases h
        simp
      · rw [if_neg hl, convert_primitive_nonscalar_type (pyStrip l) item _ he hd ht] at h
        dsimp only at h
        cases hrec : array_elements fuel item ⟨ls, c.out ++ ["  ➜ элемент: "]⟩ with
        | error e => rw [hrec] at h; dsimp only at h; cases h
        | ok pr =>
          obtain ⟨vs1, c3⟩ := pr
          rw [hrec] at h
          dsimp only at h
          cases h
          intro v hv
          rcases List.mem_cons.mp hv with hv | hv
          · exact ⟨pyStrip l, hv⟩
          · exact ih _ _ _ hrec v hv

/-- C2 amended, witnessed on an object-typed item schema: the produced
element is the string `"x"`. -/
theorem C2_amended_witness :
    objectItemSchema.enumList = [] ∧ objectItemSchema.default = none ∧
    (objectItemSchema.type = some "object" ∨ objectItemSchema.type = some "array") ∧
    array_elements 2 objectItemSchema ⟨["x", ""], []⟩ =
      .ok ([.vStr "x"], ⟨[], ["  ➜ элемент: ", "  ➜ элемент: "]⟩) ∧
    ∃ s, Value.vStr "x" = .vStr s :=
  ⟨rfl, rfl, .inl rfl, rfl,
   C2_amended_coercer_not_prompter 2 objectItemSchema ⟨["x", ""], []⟩
     [.vStr "x"] ⟨[], ["  ➜ элемент: ", "  ➜ элемент: "]⟩ rfl rfl (.inl rfl) rfl
     (.vStr "x") (by simp)⟩

/-- C4 counterexample: with no schema, typing the JSON array `[1, 2]` makes
`prompt_for_payload` return that array — not a mapping. -/
theorem C4_counterexample_nonmapping :
    prompt_for_payload 1 none ⟨["[1, 2]"], []⟩ =
      .ok (.vList [.vInt 1, .vInt 2],
        ⟨[], ["Введите тело запроса в формате JSON (или оставьте пустым): "]⟩) ∧
    Value.isMapping (.vList [.vInt 1, .vInt 2]) = false :=
  ⟨rfl, rfl⟩

/-- C4 amended: on both raw-JSON entry paths (no schema, and a non-empty
non-object schema) the parsed JSON value is returned as-is — a mapping only
when the operator types a JSON object; empty input yields the empty mapping;
a parse failure propagates as `MalformedJsonInput`. -/
theorem C4_amended_raw_json_passthrough (fuel : Nat) (l : String) (ls out : List String) :
    (prompt_for_payload fuel none ⟨l :: ls, out⟩ =
      if l = "" then
        .ok (.vDict [],
          ⟨ls, out ++ ["Введите тело запроса в формате JSON (или оставьте пустым): "]⟩)
      else
        match pyJsonLoads l with
        | .ok v => .ok (v,
            ⟨ls, out ++ ["Введите тело запроса в формате JSON (или оставьте пустым): "]⟩)
        | .error e => .error e) ∧
    (∀ s : Schema, s.isEmptyDict = false → s.type ≠ some "object" →
      prompt_for_payload fuel (some s) ⟨l :: ls, out⟩ =
        if l = "" then
          .ok (.vDict [], ⟨ls, out ++ ["Введите тело запроса в формате JSON: "]⟩)
        else
          match pyJsonLoads l with
          | .ok v => .ok (v, ⟨ls, out ++ ["Введите тело запроса в формате JSON: "]⟩)
          | .error e => .error e) := by
  constructor
  · by_cases hl : l = ""
    · simp [prompt_for_payload, falsySchema, raw_json_entry, readLine, hl]
    · simp [prompt_for_payload, falsySchema, raw_json_entry, readLine, hl]
      cases pyJsonLoads l <;> rfl
  · intro s hs ht
    by_cases hl : l = ""
    · simp [prompt_for_payload, falsySchema, raw_json_entry, readLine, hl, hs, ht]
    · simp [prompt_for_payload, falsySchema, raw_json_entry, readLine, hl, hs, ht]
      cases pyJsonLoads l <;> rfl

/-- C4 amended, witnessed on the non-object-schema fallback path with a JSON
array payload. -/
theorem C4_amended_witness :
    (leafSchema "string").isEmptyDict = false ∧
    (leafSchema "string").type ≠ some "object" ∧
    prompt_for_payload 1 (some (leafSchema "string")) ⟨["[1, 2]"], []⟩ =
      .ok (.vList [.vInt 1, .vInt 2],
        ⟨[], ["Введите тело запроса в формате JSON: "]⟩) :=
  ⟨rfl, by decide,
   (C4_amended_raw_json_passthrough 1 "[1, 2]" [] []).2 (leafSchema "string") rfl
     (by decide)⟩

/-- C1 counterexample: selecting `v3/supply-order/get` (menu item 2) and
answering `abc` for an integer array element makes the whole session loop
abort with `InvalidNumberFormat` — the modelled process terminates with an
uncaught exception instead of printing a message and returning to the menu. -/
theorem C1_counterexample_crash :
    main_loop COMMANDS 9 ⟨["2", "abc"], []⟩ = .error .invalidNumberFormat := rfl

/-- C1 amended: an error raised while building the payload (malformed number
or malformed raw JSON alike) propagates unhandled through `run_command` and
the session loop, aborting the process; no handler prints a message and no
return to the menu happens. -/
theorem C1_amended_error_propagates (fuel : Nat) (commands : List (String × Meta))
    (c c1 : Console) (selected : String) (e : Err)
    (hsel : choose_command (fuel + 1) commands c = .ok (some selected, c1))
    (herr : prompt_for_payload (fuel + 1)
      ((commands.lookup selected).getD default).schema c1 = .error e) :
    main_loop commands (fuel + 1) c = .error e := by
  simp [main_loop, run_command, hsel, herr]

/-- The console state after the menu was printed and the selection `2` was
consumed, with `abc` still pending. -/
def c1AfterMenu : Console :=
  ⟨["abc"],
   ["Доступные методы:",
    "  1. v1/analytics/stocks — Получить аналитику по остаткам",
    "  2. v3/supply-order/get — Получить информацию о заявках на поставку",
    "  3. v3/supply-order/list — Список заявок на поставку",
    "Выберите номер команды (или Enter для выхода): "]⟩

/-- C1 amended, witnessed on the concrete crashing session. -/
theorem C1_amended_witness :
    choose_command 9 COMMANDS ⟨["2", "abc"], []⟩ =
      .ok (some "v3/supply-order/get", c1AfterMenu) ∧
    prompt_for_payload 9 ((COMMANDS.lookup "v3/supply-order/get").getD default).schema
      c1AfterMenu = .error .invalidNumberFormat ∧
    main_loop COMMANDS 9 ⟨["2", "abc"], []⟩ = .error .invalidNumberFormat :=
  ⟨rfl, rfl,
   C1_amended_error_propagates 8 COMMANDS ⟨["2", "abc"], []⟩ c1AfterMenu
     "v3/supply-order/get" .invalidNumberFormat rfl rfl⟩
